import Mathlib

/-!
Verification development for the shared 2D physics core of the mini-game
repository (crazy-head target shooting, dump-it bin tossing, flush-it drain
capture, and the dwell-tracked landing zones).

The source is JavaScript/TypeScript operating on IEEE doubles; the embedding
uses exact rationals.  Calls to `Math.sqrt` are represented by an abstract
function parameter `sq : ℚ → ℚ`, constrained by `IsSqrtAt` exactly at the
arguments where the source evaluates it; calls to `Math.random` are
represented by an oracle of draws.  Divisions whose JS result would be
non-finite (0/0 = NaN) are modelled with `Option` where that corner matters.
-/

/-- Pointwise specification of `Math.sqrt`: at argument `s`, `sq` returns the
nonnegative square root of `s`. -/
def IsSqrtAt (sq : ℚ → ℚ) (s : ℚ) : Prop := 0 ≤ sq s ∧ sq s * sq s = s

/-- 2D point (the source files all declare `interface Point {x, y}`). -/
structure Point where
  x : ℚ
  y : ℚ
deriving DecidableEq

namespace CrazyHead

/-- crazyhead.tsx line 21. -/
def GRAVITY : ℚ := 0.55

/-- crazyhead.tsx line 22. -/
def AIR_FRICTION : ℚ := 0.995

/-- crazyhead.tsx line 23. -/
def BOUNCE : ℚ := 0.3

/-- crazyhead.tsx line 24. -/
def MAX_ARROW_LENGTH : ℚ := 160

/-- crazyhead.tsx line 25. -/
def LAUNCH_POWER_MULTIPLIER : ℚ := 0.22

/-- crazyhead.tsx line 137. -/
def HEAD_RADIUS : ℚ := 55

/-- crazyhead.tsx line 138: only the center 70% of the head counts as a hit. -/
def HEAD_CENTER_HITBOX : ℚ := HEAD_RADIUS * 0.7

/-- The `Projectile` interface of crazyhead.tsx (lines 100-112); the
rendering-only fields `id`, `itemId` and `isActive` are dropped. -/
structure Projectile where
  x : ℚ
  y : ℚ
  vx : ℚ
  vy : ℚ
  radius : ℚ
  rotation : ℚ
  rotationSpeed : ℚ
  hasHit : Bool
deriving DecidableEq

/-- Result of `checkHeadCollision` (the source returns the string literals
`'center' | 'edge' | 'none'`). -/
inductive HeadHit where
  | center
  | edge
  | none
deriving DecidableEq

/-- Outcome of one `updatePhysics` tick: a registered headshot, a miss
(`handleMiss`), or continued flight. -/
inductive Event where
  | headshot
  | missed
  | flight
deriving DecidableEq

/-- Squared distance from the projectile center to the head center; the
argument `Math.sqrt` receives inside `checkHeadCollision`. -/
def headDistSq (headX headY : ℚ) (p : Projectile) : ℚ :=
  (p.x - headX) * (p.x - headX) + (p.y - headY) * (p.y - headY)

/-- crazyhead.tsx lines 255-274, `checkHeadCollision`: Euclidean distance from
the projectile to the head center, compared first against the center hitbox
and then against the full head radius, each widened by half the projectile
radius. -/
def checkHeadCollision (sq : ℚ → ℚ) (headX headY : ℚ) (p : Projectile) : HeadHit :=
  let dx := p.x - headX
  let dy := p.y - headY
  let distance := sq (dx * dx + dy * dy)
  if distance < HEAD_CENTER_HITBOX + p.radius * 0.5 then HeadHit.center
  else if distance < HEAD_RADIUS + p.radius * 0.5 then HeadHit.edge
  else HeadHit.none

/-- crazyhead.tsx lines 368-379: the free-flight integration portion of
`updatePhysics` (gravity, velocity, air friction, rotation).  Note the source
has no rotation-speed decay in this game. -/
def integrate (p : Projectile) : Projectile :=
  let p1 := { p with vy := p.vy + GRAVITY }
  let p2 := { p1 with x := p1.x + p1.vx, y := p1.y + p1.vy }
  let p3 := { p2 with vx := p2.vx * AIR_FRICTION }
  { p3 with rotation := p3.rotation + p3.rotationSpeed }

/-- crazyhead.tsx lines 394-397: the edge-deflection response (reflect and
damp both velocity components, flip the spin). -/
def edgeBounce (p : Projectile) : Projectile :=
  { p with vx := -p.vx * BOUNCE, vy := -p.vy * BOUNCE * 0.5,
           rotationSpeed := -p.rotationSpeed }

/-- crazyhead.tsx lines 402-409: screen-edge handling (clamp the center so the
radius fits, negate and damp the horizontal velocity). -/
def resolveBounds (W : ℚ) (p : Projectile) : Projectile :=
  let p1 := if p.x - p.radius < 0 then { p with x := p.radius, vx := -p.vx * BOUNCE } else p
  if W < p1.x + p1.radius then { p1 with x := W - p1.radius, vx := -p1.vx * BOUNCE } else p1

/-- crazyhead.tsx lines 363-425, `updatePhysics` for a flying projectile:
integrate, test the head (center hit returns immediately and scores; edge hit
deflects), resolve screen bounds, then the two miss conditions.  On a miss the
source discards the locally updated projectile; the event component records
the outcome. -/
def updatePhysics (sq : ℚ → ℚ) (W H headX headY : ℚ) (p0 : Projectile) :
    Projectile × Event :=
  let p := integrate p0
  if p.hasHit = false ∧ checkHeadCollision sq headX headY p = HeadHit.center then
    ({ p with hasHit := true }, Event.headshot)
  else
    let p2 := if p.hasHit = false ∧ checkHeadCollision sq headX headY p = HeadHit.edge then
      edgeBounce p else p
    let p3 := resolveBounds W p2
    if H + 50 < p3.y then (p3, Event.missed)
    else if H - 30 < p3.y + p3.radius ∧ p3.hasHit = false then (p3, Event.missed)
    else (p3, Event.flight)

end CrazyHead

namespace CrazyHead

/-- Unfolding of `checkHeadCollision` in terms of the squared head distance. -/
theorem checkHeadCollision_def (sq : ℚ → ℚ) (headX headY : ℚ) (p : Projectile) :
    checkHeadCollision sq headX headY p =
      if sq (headDistSq headX headY p) < HEAD_CENTER_HITBOX + p.radius * 0.5 then HeadHit.center
      else if sq (headDistSq headX headY p) < HEAD_RADIUS + p.radius * 0.5 then HeadHit.edge
      else HeadHit.none := rfl

/-- Screen-edge resolution is the identity for a projectile already inside the
horizontal bounds. -/
theorem resolveBounds_eq_self (W : ℚ) (p : Projectile)
    (h1 : 0 ≤ p.x - p.radius) (h2 : p.x + p.radius ≤ W) :
    resolveBounds W p = p := by
  unfold resolveBounds
  rw [if_neg (not_lt.mpr h1)]
  exact if_neg (not_lt.mpr h2)

/-- Tick dispatch: a center hit registers a headshot and marks the projectile. -/
theorem updatePhysics_center (sq : ℚ → ℚ) (W H headX headY : ℚ) (p0 : Projectile)
    (hh : (integrate p0).hasHit = false)
    (hc : checkHeadCollision sq headX headY (integrate p0) = HeadHit.center) :
    updatePhysics sq W H headX headY p0 =
      ({ integrate p0 with hasHit := true }, Event.headshot) := by
  unfold updatePhysics
  exact if_pos ⟨hh, hc⟩

/-- Tick dispatch: an edge hit deflects the projectile and the tick continues
as flight when the deflected projectile stays inside bounds and above ground. -/
theorem updatePhysics_edge (sq : ℚ → ℚ) (W H headX headY : ℚ) (p0 : Projectile)
    (hh : (integrate p0).hasHit = false)
    (he : checkHeadCollision sq headX headY (integrate p0) = HeadHit.edge)
    (h1 : 0 ≤ (integrate p0).x - (integrate p0).radius)
    (h2 : (integrate p0).x + (integrate p0).radius ≤ W)
    (h3 : (integrate p0).y ≤ H + 50)
    (h4 : (integrate p0).y + (integrate p0).radius ≤ H - 30) :
    updatePhysics sq W H headX headY p0 = (edgeBounce (integrate p0), Event.flight) := by
  have hnc : ¬((integrate p0).hasHit = false ∧
      checkHeadCollision sq headX headY (integrate p0) = HeadHit.center) := by
    rintro ⟨-, hcen⟩
    rw [he] at hcen
    exact HeadHit.noConfusion hcen
  have hedge : (integrate p0).hasHit = false ∧
      checkHeadCollision sq headX headY (integrate p0) = HeadHit.edge := ⟨hh, he⟩
  have hy3 : ¬(H + 50 < (edgeBounce (integrate p0)).y) := not_lt.mpr h3
  have hy4 : ¬(H - 30 < (edgeBounce (integrate p0)).y + (edgeBounce (integrate p0)).radius ∧
      (edgeBounce (integrate p0)).hasHit = false) :=
    fun hcon => absurd hcon.1 (not_lt.mpr h4)
  simp only [updatePhysics, if_neg hnc, if_pos hedge,
    resolveBounds_eq_self W (edgeBounce (integrate p0)) h1 h2, if_neg hy3, if_neg hy4]

/-- Tick dispatch: no head interaction leaves the integrated projectile
untouched when it stays inside bounds and above ground. -/
theorem updatePhysics_none (sq : ℚ → ℚ) (W H headX headY : ℚ) (p0 : Projectile)
    (hn : checkHeadCollision sq headX headY (integrate p0) = HeadHit.none)
    (h1 : 0 ≤ (integrate p0).x - (integrate p0).radius)
    (h2 : (integrate p0).x + (integrate p0).radius ≤ W)
    (h3 : (integrate p0).y ≤ H + 50)
    (h4 : (integrate p0).y + (integrate p0).radius ≤ H - 30) :
    updatePhysics sq W H headX headY p0 = (integrate p0, Event.flight) := by
  have hnc : ¬((integrate p0).hasHit = false ∧
      checkHeadCollision sq headX headY (integrate p0) = HeadHit.center) := by
    rintro ⟨-, hcen⟩
    rw [hn] at hcen
    exact HeadHit.noConfusion hcen
  have hne : ¬((integrate p0).hasHit = false ∧
      checkHeadCollision sq headX headY (integrate p0) = HeadHit.edge) := by
    rintro ⟨-, hed⟩
    rw [hn] at hed
    exact HeadHit.noConfusion hed
  have hy3 : ¬(H + 50 < (integrate p0).y) := not_lt.mpr h3
  have hy4 : ¬(H - 30 < (integrate p0).y + (integrate p0).radius ∧
      (integrate p0).hasHit = false) :=
    fun hcon => absurd hcon.1 (not_lt.mpr h4)
  simp only [updatePhysics, if_neg hnc, if_neg hne,
    resolveBounds_eq_self W (integrate p0) h1 h2, if_neg hy3, if_neg hy4]

end CrazyHead

namespace CrazyHead

/-- The miss/flight selection at the end of a tick can never produce the
headshot event. -/
theorem event_if_ne_headshot (A B : Prop) [Decidable A] [Decidable B] :
    (if A then Event.missed else if B then Event.missed else Event.flight) ≠
      Event.headshot := by
  split
  · intro hcon; exact Event.noConfusion hcon
  · split
    · intro hcon; exact Event.noConfusion hcon
    · intro hcon; exact Event.noConfusion hcon

/-- A tick whose head test does not report a center hit never registers a
headshot, whatever the screen bounds and ground checks decide. -/
theorem updatePhysics_no_center_event (sq : ℚ → ℚ) (W H headX headY : ℚ) (p0 : Projectile)
    (hnc : ¬((integrate p0).hasHit = false ∧
      checkHeadCollision sq headX headY (integrate p0) = HeadHit.center)) :
    (updatePhysics sq W H headX headY p0).2 ≠ Event.headshot := by
  simp only [updatePhysics, if_neg hnc, apply_ite Prod.snd]
  split
  · exact event_if_ne_headshot _ _
  · exact event_if_ne_headshot _ _

/-- C1: against the circular head target, the tick outcome follows the two
concentric radii: distance below `HEAD_CENTER_HITBOX + radius·0.5`
(`centerRadius = HEAD_RADIUS·0.7 = 38.5`, forgiveness factor `k = 0.5`)
registers a headshot; otherwise distance below `HEAD_RADIUS + radius·0.5`
deflects the projectile (reflecting its velocity) and never scores; otherwise
there is no head interaction; and a projectile exactly at the head center
(closest approach distance 0) registers a center hit, never an edge deflect. -/
theorem c1_circular_head_target (sq : ℚ → ℚ) (W H headX headY : ℚ) (p0 : Projectile)
    (hsq : IsSqrtAt sq (headDistSq headX headY (integrate p0)))
    (hr : 0 ≤ p0.radius) (hh : p0.hasHit = false) :
    (sq (headDistSq headX headY (integrate p0)) < HEAD_CENTER_HITBOX + p0.radius * 0.5 →
      (updatePhysics sq W H headX headY p0).2 = Event.headshot ∧
      (updatePhysics sq W H headX headY p0).1.hasHit = true) ∧
    (HEAD_CENTER_HITBOX + p0.radius * 0.5 ≤ sq (headDistSq headX headY (integrate p0)) →
      sq (headDistSq headX headY (integrate p0)) < HEAD_RADIUS + p0.radius * 0.5 →
      (updatePhysics sq W H headX headY p0).2 ≠ Event.headshot ∧
      (0 ≤ (integrate p0).x - p0.radius → (integrate p0).x + p0.radius ≤ W →
       (integrate p0).y ≤ H + 50 → (integrate p0).y + p0.radius ≤ H - 30 →
       updatePhysics sq W H headX headY p0 =
         (edgeBounce (integrate p0), Event.flight))) ∧
    (HEAD_RADIUS + p0.radius * 0.5 ≤ sq (headDistSq headX headY (integrate p0)) →
      0 ≤ (integrate p0).x - p0.radius → (integrate p0).x + p0.radius ≤ W →
      (integrate p0).y ≤ H + 50 → (integrate p0).y + p0.radius ≤ H - 30 →
      updatePhysics sq W H headX headY p0 = (integrate p0, Event.flight)) ∧
    ((integrate p0).x = headX ∧ (integrate p0).y = headY →
      (updatePhysics sq W H headX headY p0).2 = Event.headshot) := by
  have hhP : (integrate p0).hasHit = false := hh
  refine ⟨?_, ?_, ?_, ?_⟩
  · intro hlt
    have hlt' : sq (headDistSq headX headY (integrate p0)) <
        HEAD_CENTER_HITBOX + (integrate p0).radius * 0.5 := hlt
    have hc : checkHeadCollision sq headX headY (integrate p0) = HeadHit.center := by
      rw [checkHeadCollision_def]
      exact if_pos hlt'
    rw [updatePhysics_center sq W H headX headY p0 hhP hc]
    exact ⟨rfl, rfl⟩
  · intro hge hlt
    have hge' : HEAD_CENTER_HITBOX + (integrate p0).radius * 0.5 ≤
        sq (headDistSq headX headY (integrate p0)) := hge
    have hlt' : sq (headDistSq headX headY (integrate p0)) <
        HEAD_RADIUS + (integrate p0).radius * 0.5 := hlt
    have he : checkHeadCollision sq headX headY (integrate p0) = HeadHit.edge := by
      rw [checkHeadCollision_def, if_neg (not_lt.mpr hge')]
      exact if_pos hlt'
    have hnc : ¬((integrate p0).hasHit = false ∧
        checkHeadCollision sq headX headY (integrate p0) = HeadHit.center) := by
      rintro ⟨-, hcen⟩
      rw [he] at hcen
      exact HeadHit.noConfusion hcen
    refine ⟨updatePhysics_no_center_event sq W H headX headY p0 hnc, ?_⟩
    intro h1 h2 h3 h4
    exact updatePhysics_edge sq W H headX headY p0 hhP he h1 h2 h3 h4
  · intro hge h1 h2 h3 h4
    have hradnn : HEAD_RADIUS + (integrate p0).radius * 0.5 ≤
        sq (headDistSq headX headY (integrate p0)) := hge
    have hhit : HEAD_CENTER_HITBOX ≤ HEAD_RADIUS := by
      norm_num [HEAD_CENTER_HITBOX, HEAD_RADIUS]
    have hn : checkHeadCollision sq headX headY (integrate p0) = HeadHit.none := by
      rw [checkHeadCollision_def,
        if_neg (not_lt.mpr (le_trans (by linarith) hradnn)),
        if_neg (not_lt.mpr hradnn)]
    exact updatePhysics_none sq W H headX headY p0 hn h1 h2 h3 h4
  · rintro ⟨hx, hy⟩
    have h0 : headDistSq headX headY (integrate p0) = 0 := by
      rw [headDistSq, hx, hy]; ring
    have hs0 : sq (headDistSq headX headY (integrate p0)) = 0 :=
      mul_self_eq_zero.mp (hsq.2.trans h0)
    have hlt : sq (headDistSq headX headY (integrate p0)) <
        HEAD_CENTER_HITBOX + (integrate p0).radius * 0.5 := by
      rw [hs0]
      have hhit : (0:ℚ) < HEAD_CENTER_HITBOX := by
        norm_num [HEAD_CENTER_HITBOX, HEAD_RADIUS]
      have hrn : (0:ℚ) ≤ (integrate p0).radius * 0.5 :=
        mul_nonneg hr (by norm_num)
      linarith
    have hc : checkHeadCollision sq headX headY (integrate p0) = HeadHit.center := by
      rw [checkHeadCollision_def]
      exact if_pos hlt
    rw [updatePhysics_center sq W H headX headY p0 hhP hc]

/-- Concrete projectile that drifts to the exact head center after one
integration step: spawned at (200, 300) with `vy = -GRAVITY`. -/
def c1Proj : Projectile :=
  { x := 200, y := 300, vx := 0, vy := -0.55, radius := 30,
    rotation := 0, rotationSpeed := 0, hasHit := false }

/-- Witness for C1 at the head center (200, 300) on a 400×800 screen. -/
theorem c1_circular_head_target_witness :
    (0:ℚ) ≤ c1Proj.radius ∧ c1Proj.hasHit = false ∧
    (updatePhysics (fun _ => 0) 400 800 200 300 c1Proj).2 = Event.headshot := by
  have hsq : IsSqrtAt (fun _ => 0) (headDistSq 200 300 (integrate c1Proj)) := by
    constructor
    · exact le_refl 0
    · show (0:ℚ) * 0 = headDistSq 200 300 (integrate c1Proj)
      norm_num [headDistSq, integrate, c1Proj, GRAVITY, AIR_FRICTION]
  have h := c1_circular_head_target (fun _ => 0) 400 800 200 300 c1Proj hsq
    (by norm_num [c1Proj]) rfl
  refine ⟨by norm_num [c1Proj], rfl, ?_⟩
  exact (h.1 (by norm_num [HEAD_CENTER_HITBOX, HEAD_RADIUS, c1Proj])).1

end CrazyHead

namespace DumpIt

/-- index.tsx line 306. -/
def GRAVITY : ℚ := 0.55

/-- index.tsx line 307. -/
def AIR_FRICTION : ℚ := 0.995

/-- index.tsx line 308. -/
def BOUNCE : ℚ := 0.4

/-- index.tsx line 309. -/
def PAN_BOUNCE : ℚ := 0.5

/-- index.tsx line 313. -/
def MAX_ARROW_LENGTH : ℚ := 160

/-- index.tsx line 314. -/
def LAUNCH_POWER_MULTIPLIER : ℚ := 0.18

/-- The `Patty` interface of index.tsx (lines 466-478); the rendering-only
field `id` is dropped. -/
structure Patty where
  x : ℚ
  y : ℚ
  vx : ℚ
  vy : ℚ
  radius : ℚ
  height : ℚ
  rotation : ℚ
  rotationSpeed : ℚ
  isOnPan : Bool
  isDisposed : Bool
deriving DecidableEq

/-- The `Pan` interface of index.tsx (lines 480-487). -/
structure Pan where
  x : ℚ
  y : ℚ
  width : ℚ
  height : ℚ
  tilt : ℚ
  vx : ℚ
deriving DecidableEq

/-- The `TrashBin` interface of index.tsx (lines 489-496). -/
structure TrashBin where
  x : ℚ
  y : ℚ
  width : ℚ
  height : ℚ
  openingWidth : ℚ
  openingY : ℚ
deriving DecidableEq

/-- Result of `checkTrashBinCollision` (the source returns the string
literals `'inside' | 'side' | 'none'`). -/
inductive BinHit where
  | inside
  | side
  | none
deriving DecidableEq

/-- index.tsx lines 713-725: the free-flight integration portion of
`updatePhysics` (gravity, velocity, air friction, rotation with decay). -/
def integrate (p : Patty) : Patty :=
  let p1 := { p with vy := p.vy + GRAVITY }
  let p2 := { p1 with x := p1.x + p1.vx, y := p1.y + p1.vy }
  let p3 := { p2 with vx := p2.vx * AIR_FRICTION }
  { p3 with rotation := p3.rotation + p3.rotationSpeed,
            rotationSpeed := p3.rotationSpeed * 0.98 }

/-- index.tsx lines 649-693, `checkTrashBinCollision`: pass-through success is
tested first (center inside the slightly widened opening, past the opening,
above the bin floor, moving downward); then the wall and rim contacts; else no
interaction. -/
def checkTrashBinCollision (bin : TrashBin) (p : Patty) : BinHit :=
  let binLeft := bin.x
  let binRight := bin.x + bin.width
  let binTop := bin.openingY
  let binBottom := bin.y + bin.height
  let openingLeft := bin.x + (bin.width - bin.openingWidth) / 2
  let openingRight := openingLeft + bin.openingWidth
  if (openingLeft - 5 < p.x ∧ p.x < openingRight + 5) ∧
     binTop + 10 < p.y ∧ p.y < binBottom - 10 ∧ 0 < p.vy then
    BinHit.inside
  else if (binLeft < p.x + p.radius ∧ p.x - p.radius < binRight) ∧
          (binTop - p.height < p.y ∧ p.y < binBottom) then
    if p.x - p.radius < binLeft + 12 ∧ binLeft - p.radius < p.x then BinHit.side
    else if binRight - 12 < p.x + p.radius ∧ p.x < binRight + p.radius then BinHit.side
    else if binLeft < p.x ∧ p.x < openingLeft + 5 ∧ p.y < binTop + 25 then BinHit.side
    else if openingRight - 5 < p.x ∧ p.x < binRight ∧ p.y < binTop + 25 then BinHit.side
    else BinHit.none
  else BinHit.none

/-- index.tsx lines 730-738: the pan-collision response (reposition flush to
the tilted surface, bounce the vertical velocity, add a fraction of the pan's
own horizontal velocity and spin). -/
def panBounceResponse (pan : Pan) (p : Patty) : Patty :=
  let panTop := pan.y - pan.height / 2
  let tiltOffset := pan.tilt * 12
  let relativeX := (p.x - pan.x) / (pan.width / 2)
  let panSurfaceY := panTop - tiltOffset * relativeX
  { p with y := panSurfaceY - p.height / 2 - 2,
           vy := -|p.vy| * PAN_BOUNCE,
           vx := p.vx + pan.vx * 0.4,
           rotationSpeed := p.rotationSpeed + pan.vx * 0.01 }

/-- index.tsx lines 769-773: the response to a bin side/rim contact (reflect
and damp both velocity components, flip the spin). -/
def binSideBounce (p : Patty) : Patty :=
  { p with vx := -p.vx * BOUNCE, vy := -p.vy * BOUNCE * 0.5,
           rotationSpeed := -p.rotationSpeed }

/-- index.tsx lines 777-784: screen-edge handling (clamp the center so the
radius fits, negate and damp the horizontal velocity). -/
def resolveBounds (W : ℚ) (p : Patty) : Patty :=
  let p1 := if p.x - p.radius < 0 then { p with x := p.radius, vx := -p.vx * BOUNCE } else p
  if W < p1.x + p1.radius then { p1 with x := W - p1.radius, vx := -p1.vx * BOUNCE } else p1

/-- index.tsx lines 875-889, `launchPatty`: the velocity assigned to the live
patty on release for a given drag `(direction, power)` pair. -/
def launchVelocity (direction : Point) (power : ℚ) : Point :=
  { x := direction.x * power * LAUNCH_POWER_MULTIPLIER,
    y := direction.y * power * LAUNCH_POWER_MULTIPLIER - 6 }

/-- index.tsx lines 1005-1006 inside `getAimArrow`: the seed velocity of the
trajectory preview for normalized direction `(dirX, dirY)` and clamped drag
distance. -/
def previewSeed (dirX dirY clampedDistance : ℚ) : Point :=
  { x := dirX * clampedDistance * LAUNCH_POWER_MULTIPLIER,
    y := dirY * clampedDistance * LAUNCH_POWER_MULTIPLIER - 6 }

/-- index.tsx lines 1013-1019, one step of the trajectory preview loop:
position advances by the current velocity, then gravity is added to the
vertical velocity; the preview applies no air friction. -/
def previewStep (s : Point × Point) : Point × Point :=
  ({ x := s.1.x + s.2.x, y := s.1.y + s.2.y },
   { x := s.2.x, y := s.2.y + GRAVITY })

/-- index.tsx lines 713-721, the position/velocity portion of the real
integration as a step on (position, velocity): gravity first, then the move,
then air friction on the horizontal component. -/
def realStep (s : Point × Point) : Point × Point :=
  let vy := s.2.y + GRAVITY
  ({ x := s.1.x + s.2.x, y := s.1.y + vy },
   { x := s.2.x * AIR_FRICTION, y := vy })

/-- index.tsx lines 936-951, the aim branch of `onTouchEnd`: given the drag
delta `(dx, dy)` and its length `dist` (the source's
`Math.sqrt(dx*dx + dy*dy)`), return the `(direction, power)` pair handed to
`launchPatty`, or `none` when the drag is at most 25 pixels and the aim is
cancelled without assigning any velocity. -/
def onTouchEndLaunch (dx dy dist : ℚ) : Option (Point × ℚ) :=
  if 25 < dist then some ({ x := dx / dist, y := dy / dist }, min dist MAX_ARROW_LENGTH)
  else Option.none

/-- index.tsx lines 982-1006 of `getAimArrow`: for a drag delta `(dx, dy)` of
length `dist`, the preview is suppressed below 15 pixels, otherwise its seed
velocity is computed from the normalized direction and clamped distance. -/
def getAimArrowSeed (dx dy dist : ℚ) : Option Point :=
  if dist < 15 then Option.none
  else some (previewSeed (dx / dist) (dy / dist) (min dist MAX_ARROW_LENGTH))

/-- Squared speed of a patty; `|v'| ≤ c·|v|` with both sides nonnegative is
equivalent to `speedSq v' ≤ c²·speedSq v`. -/
def speedSq (p : Patty) : ℚ := p.vx * p.vx + p.vy * p.vy

end DumpIt

namespace DumpIt

/-- Full case analysis of the screen-edge resolution: left clamp possibly
followed by the right clamp (oversized patty), left clamp alone, right clamp
alone, or no interaction. -/
theorem resolveBounds_cases (W : ℚ) (p : Patty) :
    (p.x - p.radius < 0 ∧ W < p.radius + p.radius ∧
      resolveBounds W p = { p with x := W - p.radius, vx := -(-p.vx * BOUNCE) * BOUNCE }) ∨
    (p.x - p.radius < 0 ∧ p.radius + p.radius ≤ W ∧
      resolveBounds W p = { p with x := p.radius, vx := -p.vx * BOUNCE }) ∨
    (0 ≤ p.x - p.radius ∧ W < p.x + p.radius ∧
      resolveBounds W p = { p with x := W - p.radius, vx := -p.vx * BOUNCE }) ∨
    (0 ≤ p.x - p.radius ∧ p.x + p.radius ≤ W ∧ resolveBounds W p = p) := by
  by_cases h1 : p.x - p.radius < 0
  · by_cases h2 : W < p.radius + p.radius
    · refine Or.inl ⟨h1, h2, ?_⟩
      unfold resolveBounds
      rw [if_pos h1]
      exact if_pos h2
    · refine Or.inr (Or.inl ⟨h1, not_lt.mp h2, ?_⟩)
      unfold resolveBounds
      rw [if_pos h1]
      exact if_neg h2
  · by_cases h2 : W < p.x + p.radius
    · refine Or.inr (Or.inr (Or.inl ⟨not_lt.mp h1, h2, ?_⟩))
      unfold resolveBounds
      rw [if_neg h1]
      exact if_pos h2
    · refine Or.inr (Or.inr (Or.inr ⟨not_lt.mp h1, not_lt.mp h2, ?_⟩))
      unfold resolveBounds
      rw [if_neg h1]
      exact if_neg h2

end DumpIt

namespace CrazyHead

/-- Full case analysis of the screen-edge resolution in crazyhead.tsx, which
repeats the dump-it logic with its own bounce coefficient. -/
theorem crazyResolveBounds_cases (W : ℚ) (p : Projectile) :
    (p.x - p.radius < 0 ∧ W < p.radius + p.radius ∧
      resolveBounds W p = { p with x := W - p.radius, vx := -(-p.vx * BOUNCE) * BOUNCE }) ∨
    (p.x - p.radius < 0 ∧ p.radius + p.radius ≤ W ∧
      resolveBounds W p = { p with x := p.radius, vx := -p.vx * BOUNCE }) ∨
    (0 ≤ p.x - p.radius ∧ W < p.x + p.radius ∧
      resolveBounds W p = { p with x := W - p.radius, vx := -p.vx * BOUNCE }) ∨
    (0 ≤ p.x - p.radius ∧ p.x + p.radius ≤ W ∧ resolveBounds W p = p) := by
  by_cases h1 : p.x - p.radius < 0
  · by_cases h2 : W < p.radius + p.radius
    · refine Or.inl ⟨h1, h2, ?_⟩
      unfold resolveBounds
      rw [if_pos h1]
      exact if_pos h2
    · refine Or.inr (Or.inl ⟨h1, not_lt.mp h2, ?_⟩)
      unfold resolveBounds
      rw [if_pos h1]
      exact if_neg h2
  · by_cases h2 : W < p.x + p.radius
    · refine Or.inr (Or.inr (Or.inl ⟨not_lt.mp h1, h2, ?_⟩))
      unfold resolveBounds
      rw [if_neg h1]
      exact if_pos h2
    · refine Or.inr (Or.inr (Or.inr ⟨not_lt.mp h1, not_lt.mp h2, ?_⟩))
      unfold resolveBounds
      rw [if_neg h1]
      exact if_neg h2

end CrazyHead

/-- Trash bin of a sample level: 100 wide, floor at y = 630, opening of width
68 at y = 500 (so the opening edges sit at x = 116 and x = 184). -/
def c2Bin : DumpIt.TrashBin :=
  { x := 100, y := 510, width := 100, height := 120, openingWidth := 68, openingY := 500 }

/-- Downward-moving patty centered exactly on the left opening edge x = 116,
just below the rim. -/
def c2Patty : DumpIt.Patty :=
  { x := 116, y := 520, vx := 0, vy := 1, radius := 42, height := 20,
    rotation := 0, rotationSpeed := 0, isOnPan := false, isDisposed := false }

/-- C2 counterexample: a patty centered exactly on the opening edge, for which
the rim-contact conditions hold, nonetheless registers the pass-through
outcome — the pass-through branch, not the rim-bounce branch, takes
priority. -/
theorem c2_opening_edge_counterexample :
    c2Patty.x = c2Bin.x + (c2Bin.width - c2Bin.openingWidth) / 2 ∧
    (c2Bin.x < c2Patty.x + c2Patty.radius ∧
      c2Patty.x - c2Patty.radius < c2Bin.x + c2Bin.width) ∧
    (c2Bin.openingY - c2Patty.height < c2Patty.y ∧ c2Patty.y < c2Bin.y + c2Bin.height) ∧
    (c2Patty.x - c2Patty.radius < c2Bin.x + 12 ∧ c2Bin.x - c2Patty.radius < c2Patty.x) ∧
    DumpIt.checkTrashBinCollision c2Bin c2Patty = DumpIt.BinHit.inside ∧
    DumpIt.BinHit.inside ≠ DumpIt.BinHit.side := by
  refine ⟨?_, ?_, ?_, ?_, ?_, ?_⟩
  · norm_num [c2Patty, c2Bin]
  · norm_num [c2Patty, c2Bin]
  · norm_num [c2Patty, c2Bin]
  · norm_num [c2Patty, c2Bin]
  · norm_num [DumpIt.checkTrashBinCollision, c2Patty, c2Bin]
  · decide

/-- C2 (amended): every tick of `checkTrashBinCollision` yields exactly one of
the three outcomes, and whenever the pass-through conditions hold — including
a patty centered exactly on an opening edge — the pass-through branch takes
priority over the rim-bounce branch. -/
theorem c2_bin_outcomes (bin : DumpIt.TrashBin) (p : DumpIt.Patty) :
    (DumpIt.checkTrashBinCollision bin p = DumpIt.BinHit.inside ∨
     DumpIt.checkTrashBinCollision bin p = DumpIt.BinHit.side ∨
     DumpIt.checkTrashBinCollision bin p = DumpIt.BinHit.none) ∧
    ((bin.x + (bin.width - bin.openingWidth) / 2 - 5 < p.x ∧
      p.x < bin.x + (bin.width - bin.openingWidth) / 2 + bin.openingWidth + 5) →
     bin.openingY + 10 < p.y → p.y < bin.y + bin.height - 10 → 0 < p.vy →
     DumpIt.checkTrashBinCollision bin p = DumpIt.BinHit.inside) := by
  constructor
  · cases h : DumpIt.checkTrashBinCollision bin p
    · exact Or.inl rfl
    · exact Or.inr (Or.inl rfl)
    · exact Or.inr (Or.inr rfl)
  · intro hx hy1 hy2 hv
    unfold DumpIt.checkTrashBinCollision
    exact if_pos ⟨hx, hy1, hy2, hv⟩

/-- Witness for C2 (amended) at the concrete bin and edge-centered patty. -/
theorem c2_bin_outcomes_witness :
    DumpIt.checkTrashBinCollision c2Bin c2Patty = DumpIt.BinHit.inside :=
  (c2_bin_outcomes c2Bin c2Patty).2 (by norm_num [c2Bin, c2Patty])
    (by norm_num [c2Bin, c2Patty]) (by norm_num [c2Bin, c2Patty])
    (by norm_num [c2Bin, c2Patty])

/-- Concrete spinning projectile for the C3 counterexample. -/
def c3Proj : CrazyHead.Projectile :=
  { x := 0, y := 0, vx := 0, vy := 0, radius := 30,
    rotation := 0, rotationSpeed := 1, hasHit := false }

/-- C3 counterexample: crazyhead.tsx applies no rotation-speed decay — there
is no constant `c < 1` with `rotationSpeed' = rotationSpeed · c`; at a
projectile with `rotationSpeed = 1` the integration leaves the spin exactly
unchanged. -/
theorem c3_rotation_decay_counterexample :
    (CrazyHead.integrate c3Proj).rotationSpeed = c3Proj.rotationSpeed ∧
    ¬ ∃ c : ℚ, c < 1 ∧ ∀ p : CrazyHead.Projectile,
      (CrazyHead.integrate p).rotationSpeed = p.rotationSpeed * c := by
  refine ⟨rfl, ?_⟩
  rintro ⟨c, hc, hall⟩
  have h := hall c3Proj
  have h1 : (1 : ℚ) = 1 * c := h
  rw [one_mul] at h1
  rw [← h1] at hc
  exact lt_irrefl 1 hc

/-- C3 (amended): each tick, the dump-it integration performs exactly
`vy += GRAVITY`, `position += velocity`, `vx *= AIR_FRICTION`,
`rotation += rotationSpeed` and `rotationSpeed *= 0.98` (a constant below 1);
the crazy-head integration performs the same first four updates but leaves
`rotationSpeed` unchanged (no decay). -/
theorem c3_integration_step_exact :
    (∀ p : DumpIt.Patty,
      (DumpIt.integrate p).vy = p.vy + DumpIt.GRAVITY ∧
      (DumpIt.integrate p).x = p.x + p.vx ∧
      (DumpIt.integrate p).y = p.y + (p.vy + DumpIt.GRAVITY) ∧
      (DumpIt.integrate p).vx = p.vx * DumpIt.AIR_FRICTION ∧
      (DumpIt.integrate p).rotation = p.rotation + p.rotationSpeed ∧
      (DumpIt.integrate p).rotationSpeed = p.rotationSpeed * 0.98) ∧
    (0.98 : ℚ) < 1 ∧
    (∀ q : CrazyHead.Projectile,
      (CrazyHead.integrate q).vy = q.vy + CrazyHead.GRAVITY ∧
      (CrazyHead.integrate q).x = q.x + q.vx ∧
      (CrazyHead.integrate q).y = q.y + (q.vy + CrazyHead.GRAVITY) ∧
      (CrazyHead.integrate q).vx = q.vx * CrazyHead.AIR_FRICTION ∧
      (CrazyHead.integrate q).rotation = q.rotation + q.rotationSpeed ∧
      (CrazyHead.integrate q).rotationSpeed = q.rotationSpeed) :=
  ⟨fun _ => ⟨rfl, rfl, rfl, rfl, rfl, rfl⟩, by norm_num,
   fun _ => ⟨rfl, rfl, rfl, rfl, rfl, rfl⟩⟩

/-- C4: after screen-edge resolution the horizontal position lies in
`[0, screenWidth]` (for any patty/projectile whose radius fits the screen);
on crossing `x = 0` or `x = screenWidth` the position is clamped so the body
touches the boundary and `velocity.x` is negated and scaled by the bounce
coefficient; away from the edges the resolution is the identity.  Both the
dump-it and the crazy-head instances of the logic are covered. -/
theorem c4_boundary_containment (W : ℚ) (p : DumpIt.Patty) (q : CrazyHead.Projectile)
    (hp0 : 0 ≤ p.radius) (hpW : p.radius ≤ W)
    (hq0 : 0 ≤ q.radius) (hqW : q.radius ≤ W) :
    (0 ≤ (DumpIt.resolveBounds W p).x ∧ (DumpIt.resolveBounds W p).x ≤ W) ∧
    (p.x - p.radius < 0 → p.radius + p.radius ≤ W →
      DumpIt.resolveBounds W p = { p with x := p.radius, vx := -p.vx * DumpIt.BOUNCE }) ∧
    (0 ≤ p.x - p.radius → W < p.x + p.radius →
      DumpIt.resolveBounds W p = { p with x := W - p.radius, vx := -p.vx * DumpIt.BOUNCE }) ∧
    (0 ≤ p.x - p.radius → p.x + p.radius ≤ W → DumpIt.resolveBounds W p = p) ∧
    (0 ≤ (CrazyHead.resolveBounds W q).x ∧ (CrazyHead.resolveBounds W q).x ≤ W) ∧
    (q.x - q.radius < 0 → q.radius + q.radius ≤ W →
      CrazyHead.resolveBounds W q = { q with x := q.radius, vx := -q.vx * CrazyHead.BOUNCE }) ∧
    (0 ≤ q.x - q.radius → W < q.x + q.radius →
      CrazyHead.resolveBounds W q = { q with x := W - q.radius, vx := -q.vx * CrazyHead.BOUNCE }) ∧
    (0 ≤ q.x - q.radius → q.x + q.radius ≤ W → CrazyHead.resolveBounds W q = q) := by
  refine ⟨?_, ?_, ?_, ?_, ?_, ?_, ?_, ?_⟩
  · rcases DumpIt.resolveBounds_cases W p with ⟨-, -, he⟩ | ⟨h1, -, he⟩ | ⟨-, -, he⟩ | ⟨h1, h2, he⟩ <;>
      rw [he] <;> constructor <;> (try simp) <;> linarith
  · intro h1 h2
    rcases DumpIt.resolveBounds_cases W p with ⟨-, hb, -⟩ | ⟨-, -, he⟩ | ⟨ha, -, -⟩ | ⟨ha, -, -⟩
    · exact absurd hb (not_lt.mpr h2)
    · exact he
    · exact absurd h1 (not_lt.mpr ha)
    · exact absurd h1 (not_lt.mpr ha)
  · intro h1 h2
    rcases DumpIt.resolveBounds_cases W p with ⟨ha, -, -⟩ | ⟨ha, -, -⟩ | ⟨-, -, he⟩ | ⟨-, hb, -⟩
    · exact absurd ha (not_lt.mpr h1)
    · exact absurd ha (not_lt.mpr h1)
    · exact he
    · exact absurd h2 (not_lt.mpr hb)
  · intro h1 h2
    rcases DumpIt.resolveBounds_cases W p with ⟨ha, -, -⟩ | ⟨ha, -, -⟩ | ⟨-, hb, -⟩ | ⟨-, -, he⟩
    · exact absurd ha (not_lt.mpr h1)
    · exact absurd ha (not_lt.mpr h1)
    · exact absurd hb (not_lt.mpr h2)
    · exact he
  · rcases CrazyHead.crazyResolveBounds_cases W q with ⟨-, -, he⟩ | ⟨h1, -, he⟩ | ⟨-, -, he⟩ | ⟨h1, h2, he⟩ <;>
      rw [he] <;> constructor <;> (try simp) <;> linarith
  · intro h1 h2
    rcases CrazyHead.crazyResolveBounds_cases W q with ⟨-, hb, -⟩ | ⟨-, -, he⟩ | ⟨ha, -, -⟩ | ⟨ha, -, -⟩
    · exact absurd hb (not_lt.mpr h2)
    · exact he
    · exact absurd h1 (not_lt.mpr ha)
    · exact absurd h1 (not_lt.mpr ha)
  · intro h1 h2
    rcases CrazyHead.crazyResolveBounds_cases W q with ⟨ha, -, -⟩ | ⟨ha, -, -⟩ | ⟨-, -, he⟩ | ⟨-, hb, -⟩
    · exact absurd ha (not_lt.mpr h1)
    · exact absurd ha (not_lt.mpr h1)
    · exact he
    · exact absurd h2 (not_lt.mpr hb)
  · intro h1 h2
    rcases CrazyHead.crazyResolveBounds_cases W q with ⟨ha, -, -⟩ | ⟨ha, -, -⟩ | ⟨-, hb, -⟩ | ⟨-, -, he⟩
    · exact absurd ha (not_lt.mpr h1)
    · exact absurd ha (not_lt.mpr h1)
    · exact absurd hb (not_lt.mpr h2)
    · exact he

/-- Patty that has crossed the left screen edge. -/
def c4Patty : DumpIt.Patty :=
  { x := -10, y := 200, vx := -3, vy := 2, radius := 42, height := 20,
    rotation := 0, rotationSpeed := 0, isOnPan := false, isDisposed := false }

/-- Projectile that has crossed the right screen edge. -/
def c4Proj : CrazyHead.Projectile :=
  { x := 395, y := 200, vx := 4, vy := 2, radius := 30,
    rotation := 0, rotationSpeed := 0, hasHit := false }

/-- Witness for C4 on a 400-wide screen with bodies over each edge. -/
theorem c4_boundary_containment_witness :
    (0 ≤ c4Patty.radius ∧ c4Patty.radius ≤ 400) ∧
    (0 ≤ (DumpIt.resolveBounds 400 c4Patty).x ∧ (DumpIt.resolveBounds 400 c4Patty).x ≤ 400) ∧
    (0 ≤ (CrazyHead.resolveBounds 400 c4Proj).x ∧ (CrazyHead.resolveBounds 400 c4Proj).x ≤ 400) := by
  have h := c4_boundary_containment 400 c4Patty c4Proj
    (by norm_num [c4Patty]) (by norm_num [c4Patty])
    (by norm_num [c4Proj]) (by norm_num [c4Proj])
  exact ⟨⟨by norm_num [c4Patty], by norm_num [c4Patty]⟩, h.1, h.2.2.2.2.1⟩

namespace CrazyHead

/-- Squared speed of a projectile. -/
def speedSq (p : Projectile) : ℚ := p.vx * p.vx + p.vy * p.vy

/-- crazyhead.tsx lines 491-510, the `onTouchEnd` handler: given the drag
delta `(dx, dy)` and its length `dist` (the source's
`Math.sqrt(dx*dx + dy*dy)`), return the `(direction, power)` pair handed to
`launchProjectile`, or `none` when the drag is at most 25 pixels and the aim
is cancelled (the projectile is reset to ready with no velocity assigned). -/
def onTouchEndLaunch (dx dy dist : ℚ) : Option (Point × ℚ) :=
  if 25 < dist then some ({ x := dx / dist, y := dy / dist }, min dist MAX_ARROW_LENGTH)
  else Option.none

end CrazyHead

/-- Seed velocity mismatch inputs for the C5 counterexample: drag of length
100 pointing straight down the screen. -/
def c5Seed : Point := DumpIt.launchVelocity { x := 0, y := 1 } 100

/-- C5 counterexample: starting both the preview loop and the real
integration from the same position (0,0) and the same launch seed, the very
first step already produces different positions — the preview moves before
adding gravity and skips air friction, the real integration adds gravity
first. -/
theorem c5_preview_step_counterexample :
    (DumpIt.previewStep ({ x := 0, y := 0 }, c5Seed)).1 ≠
      (DumpIt.realStep ({ x := 0, y := 0 }, c5Seed)).1 := by
  intro h
  have hy := congrArg Point.y h
  norm_num [DumpIt.previewStep, DumpIt.realStep, c5Seed, DumpIt.launchVelocity,
    DumpIt.GRAVITY, DumpIt.LAUNCH_POWER_MULTIPLIER] at hy

/-- C5 (amended): for a given `(direction, power)` pair, the velocity assigned
at launch equals the seed velocity of the trajectory preview for that same
pair (and for the same drag delta, `onTouchEnd` and `getAimArrow` compute the
same normalized direction and clamped power); the preview step, however, is
not the real integration step — it advances position by the current velocity
and only then adds gravity, and it omits the air-friction factor, so the two
agree on the new horizontal position but the real step lands `GRAVITY` lower
and damps `vx` by `AIR_FRICTION`. -/
theorem c5_launch_preview_consistency (direction : Point) (power : ℚ)
    (dx dy dist : ℚ) (hd : 25 < dist) (pos v : Point) :
    DumpIt.launchVelocity direction power =
      DumpIt.previewSeed direction.x direction.y power ∧
    (DumpIt.onTouchEndLaunch dx dy dist =
        some ({ x := dx / dist, y := dy / dist }, min dist DumpIt.MAX_ARROW_LENGTH) ∧
      DumpIt.getAimArrowSeed dx dy dist =
        some (DumpIt.previewSeed (dx / dist) (dy / dist) (min dist DumpIt.MAX_ARROW_LENGTH)) ∧
      DumpIt.launchVelocity { x := dx / dist, y := dy / dist }
          (min dist DumpIt.MAX_ARROW_LENGTH) =
        DumpIt.previewSeed (dx / dist) (dy / dist) (min dist DumpIt.MAX_ARROW_LENGTH)) ∧
    ((DumpIt.previewStep (pos, v)).1.x = (DumpIt.realStep (pos, v)).1.x ∧
      (DumpIt.realStep (pos, v)).1.y = (DumpIt.previewStep (pos, v)).1.y + DumpIt.GRAVITY ∧
      (DumpIt.realStep (pos, v)).2.y = (DumpIt.previewStep (pos, v)).2.y ∧
      (DumpIt.realStep (pos, v)).2.x = (DumpIt.previewStep (pos, v)).2.x * DumpIt.AIR_FRICTION) := by
  refine ⟨rfl, ⟨?_, ?_, rfl⟩, rfl, ?_, rfl, rfl⟩
  · unfold DumpIt.onTouchEndLaunch
    exact if_pos hd
  · unfold DumpIt.getAimArrowSeed
    exact if_neg (by linarith)
  · show pos.y + (v.y + DumpIt.GRAVITY) = pos.y + v.y + DumpIt.GRAVITY
    ring

/-- Witness for C5 (amended): drag delta (0, 100) of length 100. -/
theorem c5_launch_preview_consistency_witness :
    (25:ℚ) < 100 ∧
    DumpIt.onTouchEndLaunch 0 100 100 =
      some ({ x := 0 / 100, y := 100 / 100 }, min 100 DumpIt.MAX_ARROW_LENGTH) :=
  ⟨by norm_num,
   (c5_launch_preview_consistency { x := 0, y := 1 } 100 0 100 100 (by norm_num)
      { x := 0, y := 0 } { x := 0, y := 12 }).2.1.1⟩

/-- Stationary pan for the C7 counterexample. -/
def c7Pan : DumpIt.Pan :=
  { x := 0, y := 300, width := 130, height := 28, tilt := 0, vx := 0 }

/-- Patty sliding horizontally into the stationary pan. -/
def c7Patty : DumpIt.Patty :=
  { x := 0, y := 280, vx := 1, vy := 0, radius := 42, height := 20,
    rotation := 0, rotationSpeed := 0, isOnPan := false, isDisposed := false }

/-- C7 counterexample: the pan-collision response leaves `vx` unscaled, so
even against a stationary pan the post-collision speed exceeds
`|v| · max(bounceCoefficients)` (with coefficients `BOUNCE = 0.4` and
`PAN_BOUNCE = 0.5`); stated on squared speeds, which is equivalent since both
sides are nonnegative. -/
theorem c7_energy_counterexample :
    c7Pan.vx = 0 ∧
    ¬ DumpIt.speedSq (DumpIt.panBounceResponse c7Pan c7Patty) ≤
        (max DumpIt.BOUNCE DumpIt.PAN_BOUNCE * max DumpIt.BOUNCE DumpIt.PAN_BOUNCE) *
          DumpIt.speedSq c7Patty := by
  refine ⟨rfl, ?_⟩
  norm_num [DumpIt.speedSq, DumpIt.panBounceResponse, DumpIt.BOUNCE, DumpIt.PAN_BOUNCE,
    c7Pan, c7Patty]

/-- C7 (amended): a collision response with a stationary surface never
increases speed — the pan bounce against a pan with `vx = 0` satisfies
`|v'| ≤ |v|` (componentwise `vx` is preserved and `|vy|` is halved, so the
claimed factor `max(bounceCoefficients)` does not bound it) — and the bin
side bounce and the crazy-head edge bounce do scale the whole velocity, by at
most `max(bounceCoefficients)`.  All statements are on squared speeds. -/
theorem c7_bounce_speed (pan : DumpIt.Pan) (p : DumpIt.Patty)
    (q : CrazyHead.Projectile) (hpan : pan.vx = 0) :
    DumpIt.speedSq (DumpIt.panBounceResponse pan p) ≤ DumpIt.speedSq p ∧
    DumpIt.speedSq (DumpIt.binSideBounce p) ≤
      (max DumpIt.BOUNCE DumpIt.PAN_BOUNCE * max DumpIt.BOUNCE DumpIt.PAN_BOUNCE) *
        DumpIt.speedSq p ∧
    CrazyHead.speedSq (CrazyHead.edgeBounce q) ≤
      (CrazyHead.BOUNCE * CrazyHead.BOUNCE) * CrazyHead.speedSq q := by
  refine ⟨?_, ?_, ?_⟩
  · simp only [DumpIt.speedSq, DumpIt.panBounceResponse, DumpIt.PAN_BOUNCE, hpan]
    have habs : |p.vy| * |p.vy| = p.vy * p.vy := abs_mul_abs_self p.vy
    nlinarith [sq_nonneg p.vy, abs_nonneg p.vy]
  · simp only [DumpIt.speedSq, DumpIt.binSideBounce, DumpIt.BOUNCE, DumpIt.PAN_BOUNCE]
    norm_num
    nlinarith [sq_nonneg p.vx, sq_nonneg p.vy]
  · simp only [CrazyHead.speedSq, CrazyHead.edgeBounce, CrazyHead.BOUNCE]
    nlinarith [sq_nonneg q.vx, sq_nonneg q.vy]

/-- Projectile used to instantiate the crazy-head conjunct of the C7
witness. -/
def c7Proj : CrazyHead.Projectile :=
  { x := 100, y := 100, vx := 2, vy := -3, radius := 30,
    rotation := 0, rotationSpeed := 0, hasHit := false }

/-- Witness for C7 (amended) at the stationary pan and sliding patty. -/
theorem c7_bounce_speed_witness :
    c7Pan.vx = 0 ∧
    DumpIt.speedSq (DumpIt.panBounceResponse c7Pan c7Patty) ≤ DumpIt.speedSq c7Patty :=
  ⟨rfl, (c7_bounce_speed c7Pan c7Patty c7Proj rfl).1⟩

/-- C8: releasing an aim drag of length at most 25 performs no launch (the
pair handed to the launch function is `none` and no velocity is assigned —
the aim is cancelled); a launch happens exactly when the distance exceeds the
threshold, with `power = min(distance, MAX_ARROW_LENGTH)` and
`direction = delta / distance`, which is then a unit vector.  crazyhead.tsx
repeats the same release logic, covered by the final two conjuncts. -/
theorem c8_cancel_threshold (dx dy dist : ℚ)
    (h0 : 0 ≤ dist) (hs : dist * dist = dx * dx + dy * dy) :
    (dist ≤ 25 → DumpIt.onTouchEndLaunch dx dy dist = Option.none) ∧
    (25 < dist →
      DumpIt.onTouchEndLaunch dx dy dist =
        some ({ x := dx / dist, y := dy / dist }, min dist DumpIt.MAX_ARROW_LENGTH) ∧
      (dx / dist) * (dx / dist) + (dy / dist) * (dy / dist) = 1 ∧
      min dist DumpIt.MAX_ARROW_LENGTH ≤ DumpIt.MAX_ARROW_LENGTH ∧
      (dist ≤ DumpIt.MAX_ARROW_LENGTH → min dist DumpIt.MAX_ARROW_LENGTH = dist)) ∧
    (dist ≤ 25 → CrazyHead.onTouchEndLaunch dx dy dist = Option.none) ∧
    (25 < dist →
      CrazyHead.onTouchEndLaunch dx dy dist =
        some ({ x := dx / dist, y := dy / dist }, min dist CrazyHead.MAX_ARROW_LENGTH)) := by
  refine ⟨?_, ?_, ?_, ?_⟩
  · intro hle
    unfold DumpIt.onTouchEndLaunch
    exact if_neg (not_lt.mpr hle)
  · intro hgt
    have hne : dist ≠ 0 := ne_of_gt (by linarith)
    refine ⟨?_, ?_, min_le_right _ _, fun h => min_eq_left h⟩
    · unfold DumpIt.onTouchEndLaunch
      exact if_pos hgt
    · field_simp
      linear_combination -hs
  · intro hle
    unfold CrazyHead.onTouchEndLaunch
    exact if_neg (not_lt.mpr hle)
  · intro hgt
    unfold CrazyHead.onTouchEndLaunch
    exact if_pos hgt

/-- Witness for C8: drag delta (30, 40) of length 50 launches; length 50
satisfies the Pythagorean side condition. -/
theorem c8_cancel_threshold_witness :
    ((0:ℚ) ≤ 50 ∧ (50:ℚ) * 50 = 30 * 30 + 40 * 40) ∧
    (25:ℚ) < 50 ∧
    DumpIt.onTouchEndLaunch 30 40 50 =
      some ({ x := 30 / 50, y := 40 / 50 }, min 50 DumpIt.MAX_ARROW_LENGTH) := by
  refine ⟨⟨by norm_num, by norm_num⟩, by norm_num, ?_⟩
  exact ((c8_cancel_threshold 30 40 50 (by norm_num) (by norm_num)).2.1 (by norm_num)).1

namespace FlushIt

/-- Result record of `pointToSegmentDistance` (part_000 line 74). -/
structure SegResult where
  distance : ℚ
  closest : Point
  t : ℚ

/-- part_000 lines 70-93, `pointToSegmentDistance`: distance from a point to a
segment with the parametric projection clamped to `[0, 1]`; a zero-length
segment is guarded (`lengthSq === 0`) and treated as a point, skipping the
division. -/
def pointToSegmentDistance (sq : ℚ → ℚ) (px py x1 y1 x2 y2 : ℚ) : SegResult :=
  let dx := x2 - x1
  let dy := y2 - y1
  let lengthSq := dx * dx + dy * dy
  if lengthSq = 0 then
    { distance := sq ((px - x1) * (px - x1) + (py - y1) * (py - y1)),
      closest := { x := x1, y := y1 }, t := 0 }
  else
    let t := max 0 (min 1 (((px - x1) * dx + (py - y1) * dy) / lengthSq))
    let closestX := x1 + t * dx
    let closestY := y1 + t * dy
    { distance := sq ((px - closestX) * (px - closestX) + (py - closestY) * (py - closestY)),
      closest := { x := closestX, y := closestY }, t := t }

/-- JS division with the non-finite outcome made explicit: on the code paths
modelled here a vanishing denominator comes with a vanishing numerator, so the
JS result would be `0/0 = NaN`, modelled as `none`. -/
def jsDiv (a b : ℚ) : Option ℚ := if b = 0 then Option.none else some (a / b)

/-- part_000 lines 433-438, the direction normalization of `onTouchStart`:
`dist = Math.sqrt(dx²+dy²)` and the flow direction is `(dx/dist, dy/dist)`
with no guard on `dist = 0` (a touch exactly at the flow origin). -/
def touchFlowDirection (sq : ℚ → ℚ) (x y ox oy : ℚ) : Option Point :=
  let dx := x - ox
  let dy := y - oy
  let dist := sq (dx * dx + dy * dy)
  match jsDiv dx dist, jsDiv dy dist with
  | some ux, some uy => some { x := ux, y := uy }
  | _, _ => Option.none

/-- part_000 lines 329-337, the drain gravity of `updatePhysics`: the unit
vector towards the drain is `toDrain / toDrainDist` with no guard on
`toDrainDist = 0` (an object exactly at the drain center). -/
def drainPull (sq : ℚ → ℚ) (bowlCenterX drainY x y vx vy : ℚ) : Option (ℚ × ℚ) :=
  let toDrainX := bowlCenterX - x
  let toDrainY := drainY - y
  let toDrainDist := sq (toDrainX * toDrainX + toDrainY * toDrainY)
  match jsDiv toDrainX toDrainDist, jsDiv toDrainY toDrainDist with
  | some ux, some uy => some (vx + ux * 0.12, vy + uy * 0.18)
  | _, _ => Option.none

/-- The `FlushObject` interface of part_000 (lines 51-67); the rendering-only
fields `id`, `iconType` and `beingWashed` are dropped. -/
structure FlushObj where
  x : ℚ
  y : ℚ
  vx : ℚ
  vy : ℚ
  rotation : ℚ
  rotationSpeed : ℚ
  scale : ℚ
  opacity : ℚ
  stuck : Bool
  stickStrength : ℚ
  washPower : ℚ
  isFlushing : Bool
deriving DecidableEq

/-- Environment of one `updatePhysics` tick of part_000: the liquid-stream
state, the icon stickiness, the bowl geometry, and oracles for `Math.sqrt`
and for `Math.cos/sin(Math.atan2(y, x))` in the bowl clamp. -/
structure FlushEnv where
  isFlowing : Bool
  flowStrength : ℚ
  flowOriginX : ℚ
  flowOriginY : ℚ
  flowDirX : ℚ
  flowDirY : ℚ
  stickiness : ℚ
  bowlCenterX : ℚ
  bowlCenterY : ℚ
  bowlRadiusX : ℚ
  bowlRadiusY : ℚ
  drainY : ℚ
  sq : ℚ → ℚ
  cosAtan2 : ℚ → ℚ → ℚ
  sinAtan2 : ℚ → ℚ → ℚ

/-- part_000 line 110. -/
def DRAIN_RADIUS : ℚ := 35

/-- part_000 lines 229-233, `isInDrain`: Euclidean distance from the object to
the drain center below `DRAIN_RADIUS + 15`. -/
def isInDrain (env : FlushEnv) (obj : FlushObj) : Prop :=
  env.sq ((obj.x - env.bowlCenterX) * (obj.x - env.bowlCenterX) +
    (obj.y - env.drainY) * (obj.y - env.drainY)) < DRAIN_RADIUS + 15

instance (env : FlushEnv) (obj : FlushObj) : Decidable (isInDrain env obj) :=
  inferInstanceAs (Decidable (_ < _))

/-- part_000 lines 264-326: the liquid-stream force section of the per-object
update (`rnd` supplies the four `Math.random()` draws in call order). -/
def applyStreamForce (env : FlushEnv) (rnd : ℕ → ℚ) (obj : FlushObj) : FlushObj :=
  if env.isFlowing = true ∧ 0 < env.flowStrength then
    let streamLength := 180 + env.flowStrength * 120
    let streamEndX := env.flowOriginX + env.flowDirX * streamLength
    let streamEndY := env.flowOriginY + env.flowDirY * streamLength
    let influenceRadius := 70 + env.flowStrength * 40
    let detachThreshold := 0.4 + env.stickiness * 0.4
    let res := pointToSegmentDistance env.sq obj.x obj.y env.flowOriginX env.flowOriginY
      streamEndX streamEndY
    if res.distance < influenceRadius then
      let proximityFactor := 1 - res.distance / influenceRadius
      let streamPositionFactor := 1 - res.t * 0.3
      let baseForce := proximityFactor * streamPositionFactor * env.flowStrength
      let effectiveForce := (max baseForce 0.15) * 1.2
      let mainForce := effectiveForce * 0.8
      let a := { obj with vx := obj.vx + env.flowDirX * mainForce,
                          vy := obj.vy + env.flowDirY * mainForce }
      let lateralX := -env.flowDirY
      let lateralY := env.flowDirX
      let lateralBias : ℚ := if 0 < obj.x - res.closest.x then 0.3 else -0.3
      let b := { a with vx := a.vx + lateralX * effectiveForce * lateralBias,
                        vy := a.vy + lateralY * effectiveForce * lateralBias }
      let c :=
        if b.stuck = true then
          let c1 := { b with washPower := b.washPower + effectiveForce * 0.08 }
          let c2 := { c1 with
            rotation := c1.rotation + (rnd 0 - 0.5) * effectiveForce * 15,
            rotationSpeed := c1.rotationSpeed + (rnd 1 - 0.5) * effectiveForce * 3 }
          let c3 :=
            if c2.washPower < detachThreshold * 0.8 then
              { c2 with x := c2.x + (rnd 2 - 0.5) * effectiveForce * 2,
                        y := c2.y + (rnd 3 - 0.5) * effectiveForce * 2 }
            else c2
          if detachThreshold ≤ c3.washPower then
            { c3 with stuck := false, stickStrength := 0,
                      vx := c3.vx + env.flowDirX * 2, vy := c3.vy + env.flowDirY * 2 }
          else c3
        else b
      let rotationMultiplier : ℚ := if c.stuck = true then 0.5 else 2
      { c with rotationSpeed := c.rotationSpeed + env.flowDirX * effectiveForce * rotationMultiplier }
    else obj
  else obj

/-- part_000 lines 329-337: drain gravity for unstuck objects (the division by
`toDrainDist` is modelled with total field division; `drainPull` above records
its unguarded 0/0 corner). -/
def applyDrainGravity (env : FlushEnv) (o : FlushObj) : FlushObj :=
  if o.stuck = false then
    let toDrainX := env.bowlCenterX - o.x
    let toDrainY := env.drainY - o.y
    let toDrainDist := env.sq (toDrainX * toDrainX + toDrainY * toDrainY)
    { o with vx := o.vx + toDrainX / toDrainDist * 0.12,
             vy := o.vy + toDrainY / toDrainDist * 0.18 }
  else o

/-- part_000 lines 339-343: friction on velocity and rotation speed. -/
def applyFriction (o : FlushObj) : FlushObj :=
  let friction : ℚ := if o.stuck = true then 0.7 else 0.96
  { o with vx := o.vx * friction, vy := o.vy * friction,
           rotationSpeed := o.rotationSpeed * 0.92 }

/-- part_000 lines 345-353: position and rotation advance (stuck objects move
at 30%). -/
def applyMovement (o : FlushObj) : FlushObj :=
  let o1 :=
    if o.stuck = true then { o with x := o.x + o.vx * 0.3, y := o.y + o.vy * 0.3 }
    else { o with x := o.x + o.vx, y := o.y + o.vy }
  { o1 with rotation := o1.rotation + o1.rotationSpeed }

/-- part_000 lines 355-367: elliptic bowl-bounds clamp with soft bounce. -/
def applyBowlClamp (env : FlushEnv) (o : FlushObj) : FlushObj :=
  let relX := (o.x - env.bowlCenterX) / env.bowlRadiusX
  let relY := (o.y - env.bowlCenterY) / env.bowlRadiusY
  let ellipseDist := env.sq (relX * relX + relY * relY)
  if 0.92 < ellipseDist then
    { o with x := env.bowlCenterX + env.cosAtan2 relY relX * env.bowlRadiusX * 0.9,
             y := env.bowlCenterY + env.sinAtan2 relY relX * env.bowlRadiusY * 0.9,
             vx := o.vx * (-0.2), vy := o.vy * (-0.2) }
  else o

/-- part_000 lines 249-377: the per-object body of the `updatePhysics` map.
A flushing object only shrinks, fades and sinks; otherwise the stream force,
drain gravity, friction, movement and bowl clamp apply in order, and finally
an unstuck object entering the drain is marked flushing — the second
component records whether the score was incremented on this object. -/
def flushObjStep (env : FlushEnv) (rnd : ℕ → ℚ) (obj : FlushObj) : FlushObj × Bool :=
  if obj.isFlushing = true then
    ({ obj with scale := obj.scale * 0.92, opacity := obj.opacity * 0.9,
                y := obj.y + 3, rotation := obj.rotation + obj.rotationSpeed }, false)
  else
    let o6 := applyBowlClamp env
      (applyMovement (applyFriction (applyDrainGravity env (applyStreamForce env rnd obj))))
    if o6.stuck = false ∧ isInDrain env o6 then
      ({ o6 with isFlushing := true, rotationSpeed := 15 }, true)
    else (o6, false)

/-- The `objectsRef.current.map(...)` of part_000 line 249, with `draws i`
supplying the random draws consumed by object number `i`. -/
def flushMap (env : FlushEnv) (draws : ℕ → ℕ → ℚ) : ℕ → List FlushObj → List (FlushObj × Bool)
  | _, [] => []
  | i, obj :: rest => flushObjStep env (draws i) obj :: flushMap env draws (i + 1) rest

/-- part_000 lines 249-383, one `updatePhysics` tick on the object list and
score: map the per-object step (each scoring object adds 1), then remove
fully flushed objects (`opacity > 0.05` filter). -/
def flushTick (env : FlushEnv) (draws : ℕ → ℕ → ℚ) (objs : List FlushObj) (score : ℕ) :
    List FlushObj × ℕ :=
  let updated := flushMap env draws 0 objs
  let newScore := score + updated.countP (fun r => r.2)
  let remaining := (updated.map Prod.fst).filter (fun o => decide ((0.05:ℚ) < o.opacity))
  (remaining, newScore)

end FlushIt

namespace FlushIt

/-- The stream-force section never touches `isFlushing` or `opacity`. -/
theorem applyStreamForce_pres (env : FlushEnv) (rnd : ℕ → ℚ) (obj : FlushObj) :
    (applyStreamForce env rnd obj).isFlushing = obj.isFlushing ∧
    (applyStreamForce env rnd obj).opacity = obj.opacity := by
  simp only [applyStreamForce]
  repeat' split
  all_goals exact ⟨rfl, rfl⟩

/-- Drain gravity never touches `isFlushing` or `opacity`. -/
theorem applyDrainGravity_pres (env : FlushEnv) (o : FlushObj) :
    (applyDrainGravity env o).isFlushing = o.isFlushing ∧
    (applyDrainGravity env o).opacity = o.opacity := by
  simp only [applyDrainGravity]
  split
  all_goals exact ⟨rfl, rfl⟩

/-- Friction never touches `isFlushing` or `opacity`. -/
theorem applyFriction_pres (o : FlushObj) :
    (applyFriction o).isFlushing = o.isFlushing ∧ (applyFriction o).opacity = o.opacity :=
  ⟨rfl, rfl⟩

/-- Movement never touches `isFlushing` or `opacity`. -/
theorem applyMovement_pres (o : FlushObj) :
    (applyMovement o).isFlushing = o.isFlushing ∧ (applyMovement o).opacity = o.opacity := by
  simp only [applyMovement]
  split
  all_goals exact ⟨rfl, rfl⟩

/-- The bowl clamp never touches `isFlushing` or `opacity`. -/
theorem applyBowlClamp_pres (env : FlushEnv) (o : FlushObj) :
    (applyBowlClamp env o).isFlushing = o.isFlushing ∧
    (applyBowlClamp env o).opacity = o.opacity := by
  simp only [applyBowlClamp]
  split
  all_goals exact ⟨rfl, rfl⟩

/-- Through the whole non-flushing pipeline, `isFlushing` and `opacity` are
unchanged. -/
theorem pipeline_pres (env : FlushEnv) (rnd : ℕ → ℚ) (obj : FlushObj) :
    (applyBowlClamp env (applyMovement (applyFriction (applyDrainGravity env
      (applyStreamForce env rnd obj))))).isFlushing = obj.isFlushing ∧
    (applyBowlClamp env (applyMovement (applyFriction (applyDrainGravity env
      (applyStreamForce env rnd obj))))).opacity = obj.opacity := by
  constructor
  · rw [(applyBowlClamp_pres _ _).1, (applyMovement_pres _).1, (applyFriction_pres _).1,
      (applyDrainGravity_pres _ _).1, (applyStreamForce_pres _ _ _).1]
  · rw [(applyBowlClamp_pres _ _).2, (applyMovement_pres _).2, (applyFriction_pres _).2,
      (applyDrainGravity_pres _ _).2, (applyStreamForce_pres _ _ _).2]

/-- A flushing object only shrinks, fades and sinks, and never scores. -/
theorem flushObjStep_flushing (env : FlushEnv) (rnd : ℕ → ℚ) (obj : FlushObj)
    (h : obj.isFlushing = true) :
    flushObjStep env rnd obj =
      ({ obj with scale := obj.scale * 0.92, opacity := obj.opacity * 0.9,
                  y := obj.y + 3, rotation := obj.rotation + obj.rotationSpeed }, false) := by
  unfold flushObjStep
  exact if_pos h

/-- The per-object step scores exactly when a non-flushing object comes out
marked flushing. -/
theorem flushObjStep_score_iff (env : FlushEnv) (rnd : ℕ → ℚ) (obj : FlushObj) :
    (flushObjStep env rnd obj).2 = true ↔
      obj.isFlushing = false ∧ (flushObjStep env rnd obj).1.isFlushing = true := by
  cases hb : obj.isFlushing
  · have hnf : ¬(obj.isFlushing = true) := by simp [hb]
    simp only [flushObjStep, if_neg hnf]
    split
    · simp
    · have hpres := (pipeline_pres env rnd obj).1
      rw [hb] at hpres
      simp [hpres]
  · rw [flushObjStep_flushing env rnd obj hb]
    simp [hb]

/-- Once flushing, always flushing. -/
theorem flushObjStep_monotone (env : FlushEnv) (rnd : ℕ → ℚ) (obj : FlushObj)
    (h : obj.isFlushing = true) :
    (flushObjStep env rnd obj).1.isFlushing = true := by
  rw [flushObjStep_flushing env rnd obj h]
  exact h

/-- A non-flushing object keeps its opacity: only flushing objects ever fade
(and can therefore be removed by the `opacity > 0.05` filter). -/
theorem flushObjStep_opacity (env : FlushEnv) (rnd : ℕ → ℚ) (obj : FlushObj)
    (h : obj.isFlushing = false) :
    (flushObjStep env rnd obj).1.opacity = obj.opacity := by
  have hnf : ¬(obj.isFlushing = true) := by simp [h]
  simp only [flushObjStep, if_neg hnf]
  split
  · exact (pipeline_pres env rnd obj).2
  · exact (pipeline_pres env rnd obj).2

/-- Per-tick score accounting over the mapped list: the number of scoring
objects equals the increase in the number of flushing objects. -/
theorem flushMap_count (env : FlushEnv) (draws : ℕ → ℕ → ℚ) (objs : List FlushObj) :
    ∀ i : ℕ,
      (flushMap env draws i objs).countP (fun r => r.2) +
        objs.countP (fun o => o.isFlushing) =
      (flushMap env draws i objs).countP (fun r => r.1.isFlushing) := by
  induction objs with
  | nil => intro i; rfl
  | cons a l ih =>
    intro i
    have hrec := ih (i + 1)
    simp only [flushMap, List.countP_cons]
    cases hb : a.isFlushing
    · have hbeq : (flushObjStep env (draws i) a).2 =
          (flushObjStep env (draws i) a).1.isFlushing := by
        have hiff := flushObjStep_score_iff env (draws i) a
        rw [hb] at hiff
        cases h2 : (flushObjStep env (draws i) a).2 <;>
          cases h3 : (flushObjStep env (draws i) a).1.isFlushing <;> simp_all
      cases hfl : (flushObjStep env (draws i) a).1.isFlushing
      · rw [hfl] at hbeq
        simp [hbeq, hfl, hb]
        omega
      · rw [hfl] at hbeq
        simp [hbeq, hfl, hb]
        omega
    · have hm := flushObjStep_monotone env (draws i) a hb
      have hs := flushObjStep_flushing env (draws i) a hb
      have h2 : (flushObjStep env (draws i) a).2 = false := by rw [hs]
      simp [h2, hm, hb]
      omega

end FlushIt

/-- C6: the zero-length guard status of the simulation divisions.
`pointToSegmentDistance` does guard its division (a zero-length segment is
treated as a point and the projection is skipped), but the drain-gravity
normalization of `updatePhysics` and the flow-direction normalization of
`onTouchStart` divide by an unguarded `Math.sqrt` length: with the exact
square root (here `fun _ => 0`, correct since the argument is 0) an unstuck
object exactly at the drain center (200, 500), and a touch exactly at the
flow origin (100, 150), both produce the JS result `0/0 = NaN` (modelled as
`none`), contradicting the requirement that every such division be guarded. -/
theorem c6_division_zero_guards :
    (∀ (sq : ℚ → ℚ) (px py x1 y1 : ℚ),
      FlushIt.pointToSegmentDistance sq px py x1 y1 x1 y1 =
        { distance := sq ((px - x1) * (px - x1) + (py - y1) * (py - y1)),
          closest := { x := x1, y := y1 }, t := 0 }) ∧
    FlushIt.drainPull (fun _ => 0) 200 500 200 500 1 1 = Option.none ∧
    FlushIt.touchFlowDirection (fun _ => 0) 100 150 100 150 = Option.none := by
  refine ⟨?_, ?_, ?_⟩
  · intro sq px py x1 y1
    have hz : (x1 - x1) * (x1 - x1) + (y1 - y1) * (y1 - y1) = 0 := by ring
    unfold FlushIt.pointToSegmentDistance
    exact if_pos hz
  · unfold FlushIt.drainPull FlushIt.jsDiv
    norm_num
  · unfold FlushIt.touchFlowDirection FlushIt.jsDiv
    norm_num

/-- C10: per-tick score accounting of the drain-capture game.  A flushing
object only shrinks, fades and sinks and never scores again; the step scores
exactly when a non-flushing object comes out marked flushing (its first entry
into the drain while unstuck); the flushing mark is never cleared; a
non-flushing object keeps its opacity (so the removal filter only ever drops
flushing objects); the tick score never decreases; and the tick score
increase equals the number of objects newly marked flushing, so every object
increments the score at most once and the score counts distinct captured
objects. -/
theorem c10_flush_score_once (env : FlushIt.FlushEnv) (rnd : ℕ → ℚ)
    (obj : FlushIt.FlushObj) (draws : ℕ → ℕ → ℚ) (objs : List FlushIt.FlushObj)
    (score : ℕ) :
    (obj.isFlushing = true →
      FlushIt.flushObjStep env rnd obj =
        ({ obj with scale := obj.scale * 0.92, opacity := obj.opacity * 0.9,
                    y := obj.y + 3,
                    rotation := obj.rotation + obj.rotationSpeed }, false)) ∧
    ((FlushIt.flushObjStep env rnd obj).2 = true ↔
      obj.isFlushing = false ∧ (FlushIt.flushObjStep env rnd obj).1.isFlushing = true) ∧
    (obj.isFlushing = true → (FlushIt.flushObjStep env rnd obj).1.isFlushing = true) ∧
    (obj.isFlushing = false → (FlushIt.flushObjStep env rnd obj).1.opacity = obj.opacity) ∧
    score ≤ (FlushIt.flushTick env draws objs score).2 ∧
    (FlushIt.flushTick env draws objs score).2 + objs.countP (fun o => o.isFlushing) =
      score + (FlushIt.flushMap env draws 0 objs).countP (fun r => r.1.isFlushing) := by
  refine ⟨FlushIt.flushObjStep_flushing env rnd obj,
    FlushIt.flushObjStep_score_iff env rnd obj,
    FlushIt.flushObjStep_monotone env rnd obj,
    FlushIt.flushObjStep_opacity env rnd obj, ?_, ?_⟩
  · exact Nat.le_add_right score _
  · have h := FlushIt.flushMap_count env draws objs 0
    have ht : (FlushIt.flushTick env draws objs score).2 =
        score + (FlushIt.flushMap env draws 0 objs).countP (fun r => r.2) := rfl
    omega

/-- Environment with the stream off, used for the C10 witness. -/
def flushEnv0 : FlushIt.FlushEnv :=
  { isFlowing := false, flowStrength := 0, flowOriginX := 0, flowOriginY := 0,
    flowDirX := 0, flowDirY := 1, stickiness := 0.8, bowlCenterX := 200,
    bowlCenterY := 400, bowlRadiusX := 160, bowlRadiusY := 280, drainY := 600,
    sq := fun _ => 0, cosAtan2 := fun _ _ => 1, sinAtan2 := fun _ _ => 0 }

/-- Flushing object for the C10 witness. -/
def flushObj0 : FlushIt.FlushObj :=
  { x := 100, y := 300, vx := 0, vy := 0, rotation := 0, rotationSpeed := 2,
    scale := 1, opacity := 1, stuck := false, stickStrength := 0, washPower := 0,
    isFlushing := true }

/-- Witness for C10: a flushing object neither scores again nor loses the
flushing mark, and a tick from score 3 never decreases the score. -/
theorem c10_flush_score_once_witness :
    flushObj0.isFlushing = true ∧
    (FlushIt.flushObjStep flushEnv0 (fun _ => 0) flushObj0).2 = false ∧
    (FlushIt.flushObjStep flushEnv0 (fun _ => 0) flushObj0).1.isFlushing = true ∧
    3 ≤ (FlushIt.flushTick flushEnv0 (fun _ _ => 0) [flushObj0] 3).2 := by
  have h := c10_flush_score_once flushEnv0 (fun _ => 0) flushObj0 (fun _ _ => 0) [flushObj0] 3
  refine ⟨rfl, ?_, h.2.2.1 rfl, h.2.2.2.2.1⟩
  rw [h.1 rfl]

namespace Dwell

/-- Modelled from the spec: the catch-and-land / catch-and-stack variants that
own the StabilityTracker (the `dumpit` landing-zone and stacking modules
imported by the menu) are not among the source files, so the tracker state of
spec §4.3 is modelled from the spec's words: `settledSince` is null unless the
body currently satisfies the settled predicate, and `won` records that the
win event has fired. -/
structure DwellState where
  settledSince : Option ℚ
  won : Bool
deriving DecidableEq

/-- Modelled from the spec (§4.3): the settled predicate
`withinZoneBounds(body) AND |velocity.x| < Vt AND |velocity.y| < Vt`. -/
def isSettled (inZone : Bool) (vx vy Vt : ℚ) : Bool :=
  inZone && decide (|vx| < Vt) && decide (|vy| < Vt)

/-- Modelled from the spec (§4.3): one tracker tick.  If settled and
`settledSince` is null, set it to `now`; if settled for at least
`REQUIRED_DWELL_MS`, fire the win; if not settled, reset
`settledSince = null` immediately. -/
def dwellTick (requiredDwellMs Vt : ℚ) (inZone : Bool) (vx vy now : ℚ)
    (st : DwellState) : DwellState :=
  if isSettled inZone vx vy Vt = true then
    match st.settledSince with
    | Option.none => { st with settledSince := some now }
    | some t0 =>
      if requiredDwellMs ≤ now - t0 then { settledSince := some t0, won := true }
      else st
  else { st with settledSince := Option.none }

end Dwell

/-- C9: whenever the settled predicate is false on a tick, `settledSince` is
reset to null on that very tick and no win fires on it — no stale dwell timer
survives a disturbance (in particular a velocity component at or above the
threshold, or leaving the zone, unsettles the body); a win fires only on a
settled tick whose timer was started at least `REQUIRED_DWELL_MS` earlier
(uninterrupted, since any unsettled tick resets the timer); and a settled
tick with a null timer starts it at `now` without winning yet. -/
theorem c9_dwell_reset (requiredDwellMs Vt : ℚ) (inZone : Bool) (vx vy now : ℚ)
    (st : Dwell.DwellState) :
    (Dwell.isSettled inZone vx vy Vt = false →
      (Dwell.dwellTick requiredDwellMs Vt inZone vx vy now st).settledSince = Option.none ∧
      (Dwell.dwellTick requiredDwellMs Vt inZone vx vy now st).won = st.won) ∧
    ((Dwell.dwellTick requiredDwellMs Vt inZone vx vy now st).won = true →
      st.won = true ∨
      (Dwell.isSettled inZone vx vy Vt = true ∧
        ∃ t0, st.settledSince = some t0 ∧ requiredDwellMs ≤ now - t0)) ∧
    (Dwell.isSettled inZone vx vy Vt = true → st.settledSince = Option.none →
      (Dwell.dwellTick requiredDwellMs Vt inZone vx vy now st).settledSince = some now ∧
      (Dwell.dwellTick requiredDwellMs Vt inZone vx vy now st).won = st.won) ∧
    (inZone = false → Dwell.isSettled inZone vx vy Vt = false) ∧
    (Vt ≤ |vx| → Dwell.isSettled inZone vx vy Vt = false) := by
  refine ⟨?_, ?_, ?_, ?_, ?_⟩
  · intro hf
    have hnf : ¬(Dwell.isSettled inZone vx vy Vt = true) := by simp [hf]
    unfold Dwell.dwellTick
    rw [if_neg hnf]
    exact ⟨rfl, rfl⟩
  · intro hw
    by_cases hs : Dwell.isSettled inZone vx vy Vt = true
    · cases hss : st.settledSince with
      | none =>
        have heq : Dwell.dwellTick requiredDwellMs Vt inZone vx vy now st =
            { st with settledSince := some now } := by
          unfold Dwell.dwellTick
          rw [if_pos hs, hss]
        rw [heq] at hw
        exact Or.inl hw
      | some t0 =>
        by_cases hd : requiredDwellMs ≤ now - t0
        · exact Or.inr ⟨hs, t0, rfl, hd⟩
        · have heq : Dwell.dwellTick requiredDwellMs Vt inZone vx vy now st = st := by
            unfold Dwell.dwellTick
            rw [if_pos hs, hss]
            exact if_neg hd
          rw [heq] at hw
          exact Or.inl hw
    · have heq : Dwell.dwellTick requiredDwellMs Vt inZone vx vy now st =
          { st with settledSince := Option.none } := by
        unfold Dwell.dwellTick
        exact if_neg hs
      rw [heq] at hw
      exact Or.inl hw
  · intro hs hnone
    unfold Dwell.dwellTick
    rw [if_pos hs, hnone]
    exact ⟨rfl, rfl⟩
  · intro hz
    simp [Dwell.isSettled, hz]
  · intro hv
    have hd : decide (|vx| < Vt) = false := decide_eq_false (not_lt.mpr hv)
    simp [Dwell.isSettled, hd]

/-- Witness for C9: a body resting in the zone since t = 0 is disturbed with
`vx = 5` against threshold `Vt = 0.5` at t = 1499 (1 ms short of the required
1500 ms dwell): the predicate is false, the timer resets to null on that very
tick and no win fires. -/
theorem c9_dwell_reset_witness :
    Dwell.isSettled true 5 0 0.5 = false ∧
    (Dwell.dwellTick 1500 0.5 true 5 0 1499
      { settledSince := some 0, won := false }).settledSince = Option.none ∧
    (Dwell.dwellTick 1500 0.5 true 5 0 1499
      { settledSince := some 0, won := false }).won = false := by
  have hf : Dwell.isSettled true 5 0 0.5 = false := by
    simp [Dwell.isSettled]
    intro hcon
    exact absurd hcon (by norm_num)
  have h := c9_dwell_reset 1500 0.5 true 5 0 1499 { settledSince := some 0, won := false }
  exact ⟨hf, (h.1 hf).1, (h.1 hf).2⟩
